import Mathlib

/-!
# Verification of `scripts/fetch_latest_commits.py`

A shallow embedding of the script's pure logic:

* `build_target_url` — URL construction (Python `str.rstrip('/')` modelled by
  `pyRstripSlash` on the character list);
* `fetch_url` — the retry loop, parametrised by an *oracle* giving the outcome
  of each successive network attempt (the response, or a raised
  `requests.exceptions.RequestException`).  The loop is run on fuel
  `retries.toNat`; since each non-returning iteration increments `attempt` by
  one, `attempt < retries` holds exactly when fuel is positive, so the fuelled
  recursion is just the Python `while` loop.  Alongside the returned triple we
  record the *trace*: the ordered list of network-call and sleep events.
  `BACKOFF_FACTOR = 1.5` is the dyadic rational `3/2`, so backoff durations are
  modelled exactly in `ℚ`;
* `write_file` / `write_meta` — persistence, over a filesystem modelled as an
  association list from paths (segment lists) to file contents; a write
  prepends, a read takes the most recent entry, which gives overwrite
  semantics (`mkdir(parents=True, exist_ok=True)` makes the Python write
  total, so no failure case is modelled);
* `mainRun` — the driver loop of `main` after argument parsing: the job list
  is the builds × platforms cross product, each job is fetched and either
  persisted or turned into exactly one error record, and finally the error
  report is written and the exit code chosen.  `datetime.now` (called once
  per successful job, inside `write_meta`) is modelled by a clock function
  applied to a tick counter threaded through the driver state.
-/

/-- `DEFAULT_RETRIES = 3` (module-level constant; `--retries` is an `int`). -/
def DEFAULT_RETRIES : Int := 3

/-- `BACKOFF_FACTOR = 1.5`; the literal `1.5` is exactly `3/2`. -/
def BACKOFF_FACTOR : ℚ := 3 / 2

/-- `TIMEOUT = 30` seconds (unused by the modelled control flow). -/
def TIMEOUT : Nat := 30

/-- Python `s.rstrip('/')`: remove every trailing `'/'` character. -/
def pyRstripSlash (s : String) : String :=
  String.mk ((s.data.reverse.dropWhile (fun c => c == '/')).reverse)

/-- `build_target_url`: strip trailing slashes from the base and join the
segments with single slashes, ending in `latest_commits.txt`. -/
def build_target_url (base_url build platform : String) : String :=
  pyRstripSlash base_url ++ "/" ++ build ++ "/" ++ platform ++ "/latest_commits.txt"

/-- Dropping leading slashes ignores a prepended run of slashes. -/
lemma dropWhile_slash_replicate (k : Nat) (l : List Char) :
    List.dropWhile (fun c => c == '/') (List.replicate k '/' ++ l)
      = List.dropWhile (fun c => c == '/') l := by
  induction k with
  | zero => rfl
  | succ k ih => simp [List.replicate_succ, List.dropWhile, ih]

/-- If the first character is not a slash, `dropWhile` keeps the list. -/
lemma dropWhile_slash_of_head (l : List Char) (h : l.head? ≠ some '/') :
    List.dropWhile (fun c => c == '/') l = l := by
  cases l with
  | nil => rfl
  | cons a t =>
    have ha : a ≠ '/' := by intro hEq; exact h (by simp [hEq])
    have hb : (a == '/') = false := by simp [ha]
    simp [List.dropWhile, hb]

/-- Stripping trailing slashes from a string that does not end in `'/'`,
after appending `k` slashes, recovers the string. -/
lemma pyRstripSlash_append_replicate (base : String) (k : Nat)
    (h : base.data.getLast? ≠ some '/') :
    pyRstripSlash (base ++ String.mk (List.replicate k '/')) = base := by
  have hdata : (base ++ String.mk (List.replicate k '/')).data
      = base.data ++ List.replicate k '/' := rfl
  have hhead : base.data.reverse.head? ≠ some '/' := by
    simpa [List.head?_reverse] using h
  calc pyRstripSlash (base ++ String.mk (List.replicate k '/'))
      = String.mk (((base.data ++ List.replicate k '/').reverse.dropWhile
          (fun c => c == '/')).reverse) := by rw [pyRstripSlash, hdata]
    _ = String.mk ((List.dropWhile (fun c => c == '/')
          (List.replicate k '/' ++ base.data.reverse)).reverse) := by
          rw [List.reverse_append, List.reverse_replicate]
    _ = String.mk ((base.data.reverse.dropWhile (fun c => c == '/')).reverse) := by
          rw [dropWhile_slash_replicate]
    _ = String.mk (base.data.reverse.reverse) := by
          rw [dropWhile_slash_of_head _ hhead]
    _ = base := by rw [List.reverse_reverse]

/-- **C7.** For every base URL written as a slash-free core followed by `k ≥ 0`
trailing slashes, and every build id and platform id, `build_target_url`
returns the core joined to `build`, `platform` and `latest_commits.txt` with
exactly one `/` between adjacent segments; the result always ends with
`/latest_commits.txt`.  The function is total (a pure function of its three
string arguments), so it has no failure mode. -/
theorem C7_build_target_url (base b p : String) (k : Nat)
    (h : base.data.getLast? ≠ some '/') :
    build_target_url (base ++ String.mk (List.replicate k '/')) b p
        = base ++ "/" ++ b ++ "/" ++ p ++ "/latest_commits.txt"
      ∧ ∃ t : String, build_target_url (base ++ String.mk (List.replicate k '/')) b p
        = t ++ "/latest_commits.txt" := by
  constructor
  · rw [build_target_url, pyRstripSlash_append_replicate base k h]
  · exact ⟨_, rfl⟩

/-- Concrete instance of `C7_build_target_url`: base `"https://x/a"` with two
trailing slashes, build `"3025"`, platform `"windows"`. -/
theorem C7_build_target_url_witness :
    build_target_url ("https://x/a" ++ String.mk (List.replicate 2 '/')) "3025" "windows"
        = "https://x/a" ++ "/" ++ "3025" ++ "/" ++ "windows" ++ "/latest_commits.txt"
      ∧ ∃ t : String, build_target_url ("https://x/a" ++ String.mk (List.replicate 2 '/'))
          "3025" "windows" = t ++ "/latest_commits.txt" :=
  C7_build_target_url "https://x/a" "3025" "windows" 2 (by decide)

/-! ## The authenticated fetcher `fetch_url` -/

/-- HTTP response headers, as `requests` exposes them (name/value pairs). -/
abbrev Headers := List (String × String)

/-- Outcome of one `session.get(url, ...)` call: a response carrying a status
code, a body text and headers, or a raised
`requests.exceptions.RequestException`. -/
inductive NetOutcome
  | resp (status : Nat) (body : String) (headers : Headers)
  | exc
deriving DecidableEq

/-- The triple `fetch_url` returns: `(content, status, headers)`, each
component possibly `None`. -/
abbrev FetchResult := Option String × Option Nat × Option Headers

/-- An observable side effect of `fetch_url`, in order: one network attempt
(`call`), or one backoff sleep of `d` seconds (`sleep`). -/
inductive Ev
  | call (o : NetOutcome)
  | sleep (d : ℚ)
deriving DecidableEq

/-- A response the loop treats as transient (retried): any status other than
200, 401 and 403, or a network-level exception. -/
def NetOutcome.transient : NetOutcome → Bool
  | .resp status _ _ => !(status == 200 || status == 401 || status == 403)
  | .exc => true

/-- The `while attempt < retries` loop of `fetch_url`.  The oracle gives the
outcome of the `n`-th network attempt (0-based).  `fuel = retries.toNat -
attempt` decreases by one exactly when `attempt` increments, so `0 < fuel`
is the loop guard `attempt < retries`.  Besides the returned triple, the
ordered event trace is collected. -/
def fetchLoop (oracle : Nat → NetOutcome) : Nat → Nat → FetchResult × List Ev
  | _, 0 => ((none, none, none), [])
  | attempt, fuel + 1 =>
    match oracle attempt with
    | .resp status body headers =>
      if status = 200 then
        ((some body, some status, some headers), [.call (.resp status body headers)])
      else if status = 401 ∨ status = 403 then
        ((none, some status, some headers), [.call (.resp status body headers)])
      else
        let rest := fetchLoop oracle (attempt + 1) fuel
        (rest.1, .call (.resp status body headers)
          :: .sleep (BACKOFF_FACTOR ^ (attempt + 1)) :: rest.2)
    | .exc =>
        let rest := fetchLoop oracle (attempt + 1) fuel
        (rest.1, .call .exc :: .sleep (BACKOFF_FACTOR ^ (attempt + 1)) :: rest.2)

/-- `fetch_url(session, url, auth, headers, retries, timeout)`: the request
parameters are absorbed into the oracle (they only shape the responses), so
the modelled inputs are the oracle and `retries`. -/
def fetch_url (oracle : Nat → NetOutcome) (retries : Int) : FetchResult × List Ev :=
  fetchLoop oracle 0 retries.toNat

/-- The sleep durations of a trace, in order. -/
def sleepsOf (t : List Ev) : List ℚ :=
  t.filterMap fun e => match e with | .sleep d => some d | .call _ => none

/-- The number of network attempts in a trace. -/
def callsOf (t : List Ev) : Nat :=
  (t.filter fun e => match e with | .call _ => true | .sleep _ => false).length

@[simp] lemma sleepsOf_nil : sleepsOf [] = [] := rfl

@[simp] lemma sleepsOf_call (o : NetOutcome) (t : List Ev) :
    sleepsOf (.call o :: t) = sleepsOf t := rfl

@[simp] lemma sleepsOf_sleep (d : ℚ) (t : List Ev) :
    sleepsOf (.sleep d :: t) = d :: sleepsOf t := rfl

@[simp] lemma callsOf_nil : callsOf [] = 0 := rfl

@[simp] lemma callsOf_call (o : NetOutcome) (t : List Ev) :
    callsOf (.call o :: t) = callsOf t + 1 := by
  simp [callsOf, List.filter]

@[simp] lemma callsOf_sleep (d : ℚ) (t : List Ev) :
    callsOf (.sleep d :: t) = callsOf t := by
  simp [callsOf, List.filter]

/-- The trace of a run in which every attempt hits a transient outcome:
each attempt is immediately followed by one backoff sleep. -/
def transientTrace (oracle : Nat → NetOutcome) : Nat → Nat → List Ev
  | _, 0 => []
  | attempt, fuel + 1 =>
    .call (oracle attempt) :: .sleep (BACKOFF_FACTOR ^ (attempt + 1))
      :: transientTrace oracle (attempt + 1) fuel

/-- When every outcome is transient, the loop exhausts its fuel, returns the
all-`none` triple and produces the alternating call/sleep trace. -/
lemma fetchLoop_transient (oracle : Nat → NetOutcome)
    (h : ∀ n, (oracle n).transient = true) :
    ∀ fuel attempt, fetchLoop oracle attempt fuel
      = ((none, none, none), transientTrace oracle attempt fuel) := by
  intro fuel
  induction fuel with
  | zero => intro attempt; rfl
  | succ fuel ih =>
    intro attempt
    have htr := h attempt
    cases ho : oracle attempt with
    | exc =>
      simp only [fetchLoop, ho, ih (attempt + 1), transientTrace]
    | resp status body headers =>
      rw [ho] at htr
      simp only [NetOutcome.transient, Bool.not_eq_true', Bool.or_eq_false_iff,
        beq_eq_false_iff_ne, ne_eq] at htr
      obtain ⟨⟨h200, h401⟩, h403⟩ := htr
      simp only [fetchLoop, ho, if_neg h200, if_neg (by tauto : ¬(status = 401 ∨ status = 403)),
        ih (attempt + 1), transientTrace]

/-- A transient-run trace contains exactly `fuel` network attempts. -/
lemma callsOf_transientTrace (oracle : Nat → NetOutcome) :
    ∀ fuel attempt, callsOf (transientTrace oracle attempt fuel) = fuel := by
  intro fuel
  induction fuel with
  | zero => intro attempt; rfl
  | succ fuel ih => intro attempt; simp [transientTrace, ih]

/-- The sleep durations of a transient-run trace are the successive powers
of the backoff factor. -/
lemma sleepsOf_transientTrace (oracle : Nat → NetOutcome) :
    ∀ fuel attempt, sleepsOf (transientTrace oracle attempt fuel)
      = (List.range fuel).map fun i => BACKOFF_FACTOR ^ (attempt + i + 1) := by
  intro fuel
  induction fuel with
  | zero => intro attempt; rfl
  | succ fuel ih =>
    intro attempt
    rw [List.range_succ_eq_map]
    simp only [transientTrace, sleepsOf_call, sleepsOf_sleep, ih (attempt + 1),
      List.map_cons, List.map_map]
    refine congrArg₂ _ (by norm_num) ?_
    refine List.map_congr_left fun i _ => ?_
    have : attempt + 1 + i = attempt + Nat.succ i := by omega
    rw [Function.comp_apply, this]

/-- The successive backoff durations are strictly increasing. -/
lemma pairwise_backoff (n : Nat) :
    (((List.range n).map fun i => BACKOFF_FACTOR ^ (i + 1)).Pairwise (· < ·)) := by
  rw [List.pairwise_map]
  refine (List.pairwise_lt_range n).imp fun hab => ?_
  exact pow_lt_pow_right₀ (by norm_num [BACKOFF_FACTOR]) (by omega)

/-- **C1.** For every `retries ≥ 1`, if every network attempt yields a
transient outcome, `fetch_url` makes exactly `retries` network attempts,
returns the all-`none` failure triple, and the successive sleep durations
are `BACKOFF_FACTOR^1, BACKOFF_FACTOR^2, ...`, which are strictly increasing
(the factor `1.5` exceeds `1`). -/
theorem C1_retry_bound (oracle : Nat → NetOutcome) (r : Int) (h1 : 1 ≤ r)
    (htr : ∀ n, (oracle n).transient = true) :
    (callsOf (fetch_url oracle r).2 : Int) = r
    ∧ (fetch_url oracle r).1 = (none, none, none)
    ∧ sleepsOf (fetch_url oracle r).2
        = (List.range r.toNat).map (fun i => BACKOFF_FACTOR ^ (i + 1))
    ∧ (sleepsOf (fetch_url oracle r).2).Pairwise (· < ·)
    ∧ (1 : ℚ) < BACKOFF_FACTOR := by
  have hrun := fetchLoop_transient oracle htr r.toNat 0
  have hsl := sleepsOf_transientTrace oracle r.toNat 0
  simp only [Nat.zero_add] at hsl
  refine ⟨?_, ?_, ?_, ?_, by norm_num [BACKOFF_FACTOR]⟩
  · rw [fetch_url, hrun]
    simp only [callsOf_transientTrace]
    omega
  · rw [fetch_url, hrun]
  · rw [fetch_url, hrun]
    exact hsl
  · rw [fetch_url, hrun, hsl]
    exact pairwise_backoff r.toNat

/-- Concrete instance of `C1_retry_bound`: an always-raising fetcher with
`retries = 3`. -/
theorem C1_retry_bound_witness :
    (callsOf (fetch_url (fun _ => NetOutcome.exc) 3).2 : Int) = 3
    ∧ (fetch_url (fun _ => NetOutcome.exc) 3).1 = (none, none, none)
    ∧ sleepsOf (fetch_url (fun _ => NetOutcome.exc) 3).2
        = (List.range (Int.toNat 3)).map (fun i => BACKOFF_FACTOR ^ (i + 1))
    ∧ (sleepsOf (fetch_url (fun _ => NetOutcome.exc) 3).2).Pairwise (· < ·)
    ∧ (1 : ℚ) < BACKOFF_FACTOR :=
  C1_retry_bound (fun _ => NetOutcome.exc) 3 (by norm_num) (fun _ => rfl)

/-- **C2.** For every `retries ≥ 1`, if the first attempt returns 401 or 403,
`fetch_url` makes exactly one network attempt — no retry, no sleep — and the
failure carries the status code, whereas exhaustion-failure carries no status
(`none`), so the two failure kinds are distinguishable. -/
theorem C2_auth_short_circuit (oracle : Nat → NetOutcome) (r : Int) (s : Nat)
    (body : String) (headers : Headers) (h1 : 1 ≤ r)
    (hs : s = 401 ∨ s = 403) (h0 : oracle 0 = .resp s body headers) :
    fetch_url oracle r = ((none, some s, some headers), [.call (.resp s body headers)])
    ∧ callsOf (fetch_url oracle r).2 = 1
    ∧ sleepsOf (fetch_url oracle r).2 = []
    ∧ (some s : Option Nat) ≠ none
    ∧ ∀ oracle' : Nat → NetOutcome, (∀ n, (oracle' n).transient = true) →
        (fetch_url oracle' r).1.2.1 = none := by
  obtain ⟨f, hf⟩ : ∃ f, r.toNat = f + 1 := ⟨r.toNat - 1, by omega⟩
  have h200 : ¬ s = 200 := by rcases hs with h | h <;> omega
  have hmain : fetch_url oracle r
      = ((none, some s, some headers), [.call (.resp s body headers)]) := by
    rw [fetch_url, hf]
    simp only [fetchLoop, h0, if_neg h200, if_pos hs]
  refine ⟨hmain, by rw [hmain]; rfl, by rw [hmain]; rfl, by simp, ?_⟩
  intro oracle' htr
  rw [fetch_url, fetchLoop_transient oracle' htr r.toNat 0]

/-- Concrete instance of `C2_auth_short_circuit`: a fetcher answering 401 with
an empty body and no headers, `retries = 3`; the exhaustion branch is
instanced with an always-raising fetcher. -/
theorem C2_auth_short_circuit_witness :
    fetch_url (fun _ => NetOutcome.resp 401 "" []) 3
        = ((none, some 401, some []), [.call (.resp 401 "" [])])
    ∧ callsOf (fetch_url (fun _ => NetOutcome.resp 401 "" []) 3).2 = 1
    ∧ sleepsOf (fetch_url (fun _ => NetOutcome.resp 401 "" []) 3).2 = []
    ∧ (some 401 : Option Nat) ≠ none
    ∧ (fetch_url (fun _ => NetOutcome.exc) 3).1.2.1 = none := by
  have h := C2_auth_short_circuit (fun _ => NetOutcome.resp 401 "" []) 3 401 "" []
    (by norm_num) (Or.inl rfl) rfl
  exact ⟨h.1, h.2.1, h.2.2.1, h.2.2.2.1, h.2.2.2.2 (fun _ => NetOutcome.exc) (fun _ => rfl)⟩

/-- **C3 (counterexample).** With `retries = 1` and an always-raising fetcher,
the run exhausts its single attempt, yet the trace ends with a sleep event
*after* that final network attempt — refuting the claim that no sleep occurs
after the final attempt: `attempt += 1; time.sleep(...)` runs inside the loop
body even on the last iteration. -/
theorem C3_counterexample :
    callsOf (fetch_url (fun _ => NetOutcome.exc) 1).2 = 1
    ∧ (fetch_url (fun _ => NetOutcome.exc) 1).2
        = [Ev.call NetOutcome.exc, Ev.sleep (BACKOFF_FACTOR ^ 1)]
    ∧ ((fetch_url (fun _ => NetOutcome.exc) 1).2).getLast?
        = some (Ev.sleep (BACKOFF_FACTOR ^ 1)) :=
  ⟨rfl, rfl, rfl⟩

/-- A cons cell with a nonempty tail has the tail's last element. -/
lemma getLast?_cons_of_ne_nil {α : Type} (a : α) (l : List α) (h : l ≠ []) :
    (a :: l).getLast? = l.getLast? := by
  cases l with
  | nil => exact absurd rfl h
  | cons b t => exact List.getLast?_cons_cons

/-- The transient trace, written as an interleaving indexed by the attempt
number. -/
lemma transientTrace_eq_bind (oracle : Nat → NetOutcome) :
    ∀ fuel attempt, transientTrace oracle attempt fuel
      = (List.range fuel).flatMap fun i =>
          [.call (oracle (attempt + i)), .sleep (BACKOFF_FACTOR ^ (attempt + i + 1))] := by
  intro fuel
  induction fuel with
  | zero => intro attempt; rfl
  | succ fuel ih =>
    intro attempt
    have hfun : (fun i =>
        [Ev.call (oracle (attempt + 1 + i)),
         Ev.sleep (BACKOFF_FACTOR ^ (attempt + 1 + i + 1))])
        = fun i => [Ev.call (oracle (attempt + Nat.succ i)),
            Ev.sleep (BACKOFF_FACTOR ^ (attempt + Nat.succ i + 1))] := by
      funext i
      have hx : attempt + 1 + i = attempt + Nat.succ i := by omega
      rw [hx]
    rw [List.range_succ_eq_map]
    simp only [transientTrace, ih (attempt + 1), hfun, List.flatMap_cons, List.flatMap_map]
    simp

/-- The last event of a nonempty transient trace is the sleep that follows
the final attempt. -/
lemma getLast?_transientTrace (oracle : Nat → NetOutcome) :
    ∀ fuel attempt, (transientTrace oracle attempt (fuel + 1)).getLast?
      = some (.sleep (BACKOFF_FACTOR ^ (attempt + fuel + 1))) := by
  intro fuel
  induction fuel with
  | zero => intro attempt; rfl
  | succ fuel ih =>
    intro attempt
    have h1 : transientTrace oracle attempt (fuel + 1 + 1)
        = .call (oracle attempt) :: .sleep (BACKOFF_FACTOR ^ (attempt + 1))
          :: transientTrace oracle (attempt + 1) (fuel + 1) := rfl
    have hx : attempt + 1 + fuel + 1 = attempt + (fuel + 1) + 1 := by omega
    rw [h1, List.getLast?_cons_cons,
      getLast?_cons_of_ne_nil _ _ (by simp [transientTrace]), ih (attempt + 1), hx]

/-- **C3 (amended).** For every `retries ≥ 1` and an always-transient fetcher,
every one of the `retries` transient attempts — including the final one — is
immediately followed by a backoff sleep of `BACKOFF_FACTOR^attempt` seconds;
in particular the trace ends with the sleep `BACKOFF_FACTOR^retries` after the
final attempt, and the function then returns failure with no status. -/
theorem C3_backoff_placement (oracle : Nat → NetOutcome) (r : Int) (h1 : 1 ≤ r)
    (htr : ∀ n, (oracle n).transient = true) :
    (fetch_url oracle r).2
        = (List.range r.toNat).flatMap (fun i =>
            [.call (oracle i), .sleep (BACKOFF_FACTOR ^ (i + 1))])
    ∧ (fetch_url oracle r).1 = (none, none, none)
    ∧ ((fetch_url oracle r).2).getLast? = some (.sleep (BACKOFF_FACTOR ^ r.toNat)) := by
  have hrun := fetchLoop_transient oracle htr r.toNat 0
  refine ⟨?_, by rw [fetch_url, hrun], ?_⟩
  · rw [fetch_url, hrun, transientTrace_eq_bind]
    simp
  · obtain ⟨f, hf⟩ : ∃ f, r.toNat = f + 1 := ⟨r.toNat - 1, by omega⟩
    rw [fetch_url, hrun, hf, getLast?_transientTrace]
    simp

/-- Concrete instance of `C3_backoff_placement`: an always-raising fetcher
with `retries = 2`. -/
theorem C3_backoff_placement_witness :
    (fetch_url (fun _ => NetOutcome.exc) 2).2
        = (List.range (Int.toNat 2)).flatMap (fun i =>
            [Ev.call NetOutcome.exc, Ev.sleep (BACKOFF_FACTOR ^ (i + 1))])
    ∧ (fetch_url (fun _ => NetOutcome.exc) 2).1 = (none, none, none)
    ∧ ((fetch_url (fun _ => NetOutcome.exc) 2).2).getLast?
        = some (.sleep (BACKOFF_FACTOR ^ Int.toNat 2)) :=
  C3_backoff_placement (fun _ => NetOutcome.exc) 2 (by norm_num) (fun _ => rfl)

/-! ## Persistence and the driver loop of `main` -/

/-- A filesystem path below the working directory, as its list of segments. -/
abbrev FsPath := List String

/-- One entry of the accumulated `errors` list
(`{"build": ..., "platform": ..., "url": ..., "error": ...}`). -/
structure ErrorRecord where
  build : String
  platform : String
  url : String
  error : String
deriving DecidableEq

/-- The content of a written file: the verbatim body text of
`latest_commits.txt`, the JSON object of `meta.json` (all values are
strings), or the JSON array of `fetch_errors.json`. -/
inductive FileContent
  | text (s : String)
  | jsonObj (kvs : List (String × String))
  | errs (l : List ErrorRecord)
deriving DecidableEq

/-- The output tree: an association list from paths to contents. -/
abbrev FS := List (FsPath × FileContent)

/-- A write prepends; together with `fsRead` taking the most recent entry
this gives overwrite semantics.  `mkdir(parents=True, exist_ok=True)` before
each write makes the Python write total, so no failure case exists. -/
def fsWrite (fs : FS) (p : FsPath) (c : FileContent) : FS := (p, c) :: fs

/-- Read a path back: the most recently written content, if any. -/
def fsRead : FS → FsPath → Option FileContent
  | [], _ => none
  | e :: rest, p => if e.1 = p then some e.2 else fsRead rest p

@[simp] lemma fsRead_write_self (fs : FS) (p : FsPath) (c : FileContent) :
    fsRead (fsWrite fs p c) p = some c := by
  simp [fsWrite, fsRead]

lemma fsRead_write_ne (fs : FS) (p q : FsPath) (c : FileContent) (h : p ≠ q) :
    fsRead (fsWrite fs p c) q = fsRead fs q := by
  simp [fsWrite, fsRead, h]

/-- `write_file`: create parent directories, then write the body verbatim. -/
def write_file (fs : FS) (path : FsPath) (content : String) : FS :=
  fsWrite fs path (.text content)

/-- The fields of an aware `datetime` whose `tzinfo` is the fixed
`timezone(timedelta(hours=5, minutes=30))`. -/
structure PyDateTime where
  year : Nat
  month : Nat
  day : Nat
  hour : Nat
  minute : Nat
  second : Nat
  microsecond : Nat
deriving DecidableEq

/-- Zero-pad a decimal rendering to `w` digits. -/
def padNum (w : Nat) (n : Nat) : String :=
  String.mk (List.replicate (w - (toString n).length) '0') ++ toString n

/-- `datetime.isoformat()` of an aware datetime in the fixed `+05:30`
timezone: the offset suffix is determined by the `tzinfo` the script hard
codes; the microsecond part is omitted when zero. -/
def isoformat (d : PyDateTime) : String :=
  padNum 4 d.year ++ "-" ++ padNum 2 d.month ++ "-" ++ padNum 2 d.day ++ "T"
    ++ padNum 2 d.hour ++ ":" ++ padNum 2 d.minute ++ ":" ++ padNum 2 d.second
    ++ (if d.microsecond = 0 then "" else "." ++ padNum 6 d.microsecond)
    ++ "+05:30"

/-- The dict `write_meta` serialises into `meta.json`, in insertion order. -/
def metaKvs (build platform : String) (now : PyDateTime) (source_url : String) :
    List (String × String) :=
  [("build", build), ("platform", platform),
   ("fetched_at", isoformat now), ("source_url", source_url)]

/-- `write_meta`: write the MetaRecord to `path.parent / "meta.json"`,
overwriting any prior file; `now` is the sampled `datetime.now(...)`. -/
def write_meta (fs : FS) (path : FsPath) (build platform source_url : String)
    (now : PyDateTime) : FS :=
  fsWrite fs (path.dropLast ++ ["meta.json"])
    (.jsonObj (metaKvs build platform now source_url))

/-- The driver state owned by `main`'s loop: the output tree, the error
list, the success counter, and the tick that feeds the modelled
`datetime.now` (sampled once per successful job, inside `write_meta`). -/
structure DriverState where
  fs : FS
  errors : List ErrorRecord
  success_count : Nat
  time : Nat

/-- The job list: the builds × platforms cross product, builds outer,
platforms inner, in sequence order. -/
def jobList (builds platforms : List String) : List (String × String) :=
  builds.flatMap fun b => platforms.map fun p => (b, p)

/-- `f"AUTH ERROR {status} fetching {target_url}"`. -/
def authMsg (status : Nat) (url : String) : String :=
  "AUTH ERROR " ++ toString status ++ " fetching " ++ url

/-- `f"FAILED to fetch {target_url} after {args.retries} attempts"`. -/
def failMsg (url : String) (retries : Int) : String :=
  "FAILED to fetch " ++ url ++ " after " ++ toString retries ++ " attempts"

/-- The record a failed job appends to `errors`: the auth message when the
returned status is 401 or 403, the exhaustion message otherwise. -/
def errorRecordOf (base : String) (retries : Int) (status : Option Nat)
    (job : String × String) : ErrorRecord :=
  { build := job.1, platform := job.2, url := build_target_url base job.1 job.2,
    error := match status with
      | some s => if s = 401 ∨ s = 403 then authMsg s (build_target_url base job.1 job.2)
                  else failMsg (build_target_url base job.1 job.2) retries
      | none => failMsg (build_target_url base job.1 job.2) retries }

/-- One iteration of the driver's nested loop: fetch the job's URL, then
either append exactly one error record and continue, or persist the body
and the metadata and count the success.  The per-job oracle `network job`
gives that job's successive attempt outcomes. -/
def processJob (network : String × String → Nat → NetOutcome) (retries : Int)
    (base : String) (out : FsPath) (clock : Nat → PyDateTime)
    (st : DriverState) (job : String × String) : DriverState :=
  let target_url := build_target_url base job.1 job.2
  let local_path := out ++ [job.1, job.2, "latest_commits.txt"]
  let res := (fetch_url (network job) retries).1
  match res.1 with
  | none => { st with errors := st.errors ++ [errorRecordOf base retries res.2.1 job] }
  | some content =>
    { st with
      fs := write_meta (write_file st.fs local_path content) local_path job.1 job.2
              target_url (clock st.time),
      success_count := st.success_count + 1,
      time := st.time + 1 }

/-- The whole job loop, from an initial output tree `fs0`. -/
def runJobs (network : String × String → Nat → NetOutcome) (retries : Int)
    (base : String) (out : FsPath) (clock : Nat → PyDateTime)
    (jobs : List (String × String)) (fs0 : FS) : DriverState :=
  jobs.foldl (processJob network retries base out clock) ⟨fs0, [], 0, 0⟩

/-- `main` after argument parsing: strip the base URL, run every job of the
cross product, then — if any errors accumulated — write
`{out}/fetch_errors.json` and exit 2, else exit 0.  The returned pair is
the final driver state and the process exit code. -/
def mainRun (network : String × String → Nat → NetOutcome)
    (clock : Nat → PyDateTime) (base_url : String)
    (builds platforms : List String) (out : FsPath) (retries : Int)
    (fs0 : FS) : DriverState × Nat :=
  let st := runJobs network retries (pyRstripSlash base_url) out clock
    (jobList builds platforms) fs0
  if st.errors.isEmpty then (st, 0)
  else ({ st with fs := fsWrite st.fs (out ++ ["fetch_errors.json"]) (.errs st.errors) }, 2)

/-- A job succeeds exactly when `fetch_url` returns some content. -/
def jobOk (network : String × String → Nat → NetOutcome) (retries : Int)
    (job : String × String) : Bool :=
  ((fetch_url (network job) retries).1.1).isSome

/-- A successful job writes the body, then the metadata next to it, bumps the
success counter and consumes one clock tick. -/
lemma processJob_success (network : String × String → Nat → NetOutcome)
    (retries : Int) (base : String) (out : FsPath) (clock : Nat → PyDateTime)
    (st : DriverState) (job : String × String) (c : String)
    (h : (fetch_url (network job) retries).1.1 = some c) :
    processJob network retries base out clock st job
      = { st with
          fs := fsWrite
                  (fsWrite st.fs (out ++ [job.1, job.2, "latest_commits.txt"]) (.text c))
                  (out ++ [job.1, job.2, "meta.json"])
                  (.jsonObj (metaKvs job.1 job.2 (clock st.time)
                    (build_target_url base job.1 job.2))),
          success_count := st.success_count + 1,
          time := st.time + 1 } := by
  have hd : (out ++ [job.1, job.2, "latest_commits.txt"]).dropLast ++ ["meta.json"]
      = out ++ [job.1, job.2, "meta.json"] := by simp
  simp only [processJob, h, write_meta, write_file, hd]

/-- A failed job appends exactly one error record and changes nothing else. -/
lemma processJob_failure (network : String × String → Nat → NetOutcome)
    (retries : Int) (base : String) (out : FsPath) (clock : Nat → PyDateTime)
    (st : DriverState) (job : String × String)
    (h : (fetch_url (network job) retries).1.1 = none) :
    processJob network retries base out clock st job
      = { st with errors := st.errors
            ++ [errorRecordOf base retries (fetch_url (network job) retries).1.2.1 job] } := by
  simp only [processJob, h]

/-- Splitting a list by a boolean predicate preserves its length. -/
lemma length_filter_add_length_filter_not {α : Type} (q : α → Bool) (l : List α) :
    (l.filter q).length + (l.filter fun a => ! q a).length = l.length := by
  induction l with
  | nil => rfl
  | cons a t ih => cases h : q a <;> simp [List.filter_cons, h] <;> omega

/-- The fold invariant of the driver loop: the final error list extends the
initial one by exactly one record per failed job, in job order, and the
success counter and the clock tick advance by the number of successful
jobs. -/
lemma runJobs_characterization (network : String × String → Nat → NetOutcome)
    (retries : Int) (base : String) (out : FsPath) (clock : Nat → PyDateTime) :
    ∀ (jobs : List (String × String)) (st : DriverState),
      (jobs.foldl (processJob network retries base out clock) st).errors
        = st.errors ++ (jobs.filter fun j => ! jobOk network retries j).map
            (fun j => errorRecordOf base retries (fetch_url (network j) retries).1.2.1 j)
      ∧ (jobs.foldl (processJob network retries base out clock) st).success_count
        = st.success_count + (jobs.filter (jobOk network retries)).length
      ∧ (jobs.foldl (processJob network retries base out clock) st).time
        = st.time + (jobs.filter (jobOk network retries)).length := by
  intro jobs
  induction jobs with
  | nil => intro st; simp
  | cons j rest ih =>
    intro st
    rw [List.foldl_cons]
    cases hc : (fetch_url (network j) retries).1.1 with
    | none =>
      have hok : jobOk network retries j = false := by simp [jobOk, hc]
      rw [processJob_failure network retries base out clock st j hc]
      refine ⟨?_, ?_, ?_⟩
      · rw [(ih _).1]
        simp [List.filter_cons, hok, hc]
      · rw [(ih _).2.1]
        simp [List.filter_cons, hok]
      · rw [(ih _).2.2]
        simp [List.filter_cons, hok]
    | some c =>
      have hok : jobOk network retries j = true := by simp [jobOk, hc]
      rw [processJob_success network retries base out clock st j c hc]
      refine ⟨?_, ?_, ?_⟩
      · rw [(ih _).1]
        simp [List.filter_cons, hok]
      · rw [(ih _).2.1]
        simp [List.filter_cons, hok]
        omega
      · rw [(ih _).2.2]
        simp [List.filter_cons, hok]
        omega

/-- The two per-job target paths never collide with a path of a different
shape below `out`. -/
lemma job_path_ne (out : FsPath) (a b c : String) :
    out ++ [a, b, c] ≠ out ++ ["fetch_errors.json"] := by
  intro h
  have := List.append_cancel_left h
  simp at this

/-- The driver loop never writes `fetch_errors.json` (both per-job writes sit
three segments below `out`). -/
lemma runJobs_fsRead_err (network : String × String → Nat → NetOutcome)
    (retries : Int) (base : String) (out : FsPath) (clock : Nat → PyDateTime) :
    ∀ (jobs : List (String × String)) (st : DriverState),
      fsRead ((jobs.foldl (processJob network retries base out clock) st).fs)
          (out ++ ["fetch_errors.json"])
        = fsRead st.fs (out ++ ["fetch_errors.json"]) := by
  intro jobs
  induction jobs with
  | nil => intro st; rfl
  | cons j rest ih =>
    intro st
    rw [List.foldl_cons, ih]
    cases hc : (fetch_url (network j) retries).1.1 with
    | none => rw [processJob_failure network retries base out clock st j hc]
    | some c =>
      rw [processJob_success network retries base out clock st j c hc]
      exact (fsRead_write_ne _ _ _ _ (job_path_ne out j.1 j.2 "meta.json")).trans
        (fsRead_write_ne _ _ _ _ (job_path_ne out j.1 j.2 "latest_commits.txt"))

/-- Both branches of the final `if` keep the error list and the success
counter of the loop's final state. -/
lemma mainRun_fields (network : String × String → Nat → NetOutcome)
    (clock : Nat → PyDateTime) (base_url : String) (builds platforms : List String)
    (out : FsPath) (retries : Int) (fs0 : FS) :
    (mainRun network clock base_url builds platforms out retries fs0).1.errors
        = (runJobs network retries (pyRstripSlash base_url) out clock
            (jobList builds platforms) fs0).errors
    ∧ (mainRun network clock base_url builds platforms out retries fs0).1.success_count
        = (runJobs network retries (pyRstripSlash base_url) out clock
            (jobList builds platforms) fs0).success_count := by
  simp only [mainRun]
  split
  · exact ⟨rfl, rfl⟩
  · exact ⟨rfl, rfl⟩

/-- **C5.** Over the full builds × platforms cross product, every job is
attempted and lands in exactly one bucket: the final error list consists of
exactly one `ErrorRecord {build, platform, url, error}` per job that did not
reach success, in job order — no failed job contributes zero or two records,
and no successful job contributes any — and the success count plus the error
count equals the number of jobs, so no failure aborts the loop. -/
theorem C5_error_accounting (network : String × String → Nat → NetOutcome)
    (clock : Nat → PyDateTime) (base_url : String) (builds platforms : List String)
    (out : FsPath) (retries : Int) (fs0 : FS) :
    (mainRun network clock base_url builds platforms out retries fs0).1.errors
        = ((jobList builds platforms).filter fun j => ! jobOk network retries j).map
            (fun j => errorRecordOf (pyRstripSlash base_url) retries
              (fetch_url (network j) retries).1.2.1 j)
    ∧ (mainRun network clock base_url builds platforms out retries fs0).1.success_count
        = ((jobList builds platforms).filter (jobOk network retries)).length
    ∧ (mainRun network clock base_url builds platforms out retries fs0).1.success_count
        + (mainRun network clock base_url builds platforms out retries fs0).1.errors.length
        = (jobList builds platforms).length := by
  obtain ⟨hfields_err, hfields_succ⟩ :=
    mainRun_fields network clock base_url builds platforms out retries fs0
  obtain ⟨he, hs, -⟩ := runJobs_characterization network retries (pyRstripSlash base_url)
    out clock (jobList builds platforms) ⟨fs0, [], 0, 0⟩
  rw [runJobs] at hfields_err hfields_succ
  rw [hfields_err, hfields_succ, he, hs]
  refine ⟨by simp, by simp, ?_⟩
  simp only [List.nil_append, Nat.zero_add, List.length_map]
  exact length_filter_add_length_filter_not (jobOk network retries) (jobList builds platforms)

/-- **C4.** If every job of the cross product succeeds, the process exits
with code 0 and `{out}/fetch_errors.json` is left untouched (not written);
if at least one job fails, the accumulated error list is serialised to
`{out}/fetch_errors.json` and the process exits with code 2. -/
theorem C4_exit_codes (network : String × String → Nat → NetOutcome)
    (clock : Nat → PyDateTime) (base_url : String) (builds platforms : List String)
    (out : FsPath) (retries : Int) (fs0 : FS) :
    ((∀ j ∈ jobList builds platforms, jobOk network retries j = true) →
        (mainRun network clock base_url builds platforms out retries fs0).2 = 0
        ∧ fsRead (mainRun network clock base_url builds platforms out retries fs0).1.fs
            (out ++ ["fetch_errors.json"])
          = fsRead fs0 (out ++ ["fetch_errors.json"]))
    ∧ ((∃ j ∈ jobList builds platforms, jobOk network retries j = false) →
        (mainRun network clock base_url builds platforms out retries fs0).2 = 2
        ∧ (mainRun network clock base_url builds platforms out retries fs0).1.errors ≠ []
        ∧ fsRead (mainRun network clock base_url builds platforms out retries fs0).1.fs
            (out ++ ["fetch_errors.json"])
          = some (.errs
              (mainRun network clock base_url builds platforms out retries fs0).1.errors)) := by
  obtain ⟨he, -, -⟩ := runJobs_characterization network retries (pyRstripSlash base_url)
    out clock (jobList builds platforms) ⟨fs0, [], 0, 0⟩
  have herr : (runJobs network retries (pyRstripSlash base_url) out clock
      (jobList builds platforms) fs0).errors
      = ((jobList builds platforms).filter fun j => ! jobOk network retries j).map
          (fun j => errorRecordOf (pyRstripSlash base_url) retries
            (fetch_url (network j) retries).1.2.1 j) := by
    rw [runJobs, he]
    simp
  constructor
  · intro hall
    have hnil : ((jobList builds platforms).filter fun j => ! jobOk network retries j) = [] :=
      List.filter_eq_nil_iff.mpr fun a ha => by simp [hall a ha]
    have hempty : (runJobs network retries (pyRstripSlash base_url) out clock
        (jobList builds platforms) fs0).errors.isEmpty = true := by
      rw [herr, hnil]
      rfl
    have hmain : mainRun network clock base_url builds platforms out retries fs0
        = (runJobs network retries (pyRstripSlash base_url) out clock
            (jobList builds platforms) fs0, 0) := by
      simp only [mainRun]
      rw [if_pos hempty]
    rw [hmain]
    refine ⟨rfl, ?_⟩
    rw [runJobs]
    exact runJobs_fsRead_err network retries (pyRstripSlash base_url) out clock
      (jobList builds platforms) ⟨fs0, [], 0, 0⟩
  · rintro ⟨j, hj, hfail⟩
    have hmem : errorRecordOf (pyRstripSlash base_url) retries
        (fetch_url (network j) retries).1.2.1 j
        ∈ (runJobs network retries (pyRstripSlash base_url) out clock
            (jobList builds platforms) fs0).errors := by
      rw [herr]
      exact List.mem_map_of_mem _ (List.mem_filter.mpr ⟨hj, by simp [hfail]⟩)
    have hne : (runJobs network retries (pyRstripSlash base_url) out clock
        (jobList builds platforms) fs0).errors ≠ [] := List.ne_nil_of_mem hmem
    have hfalse : ¬ ((runJobs network retries (pyRstripSlash base_url) out clock
        (jobList builds platforms) fs0).errors.isEmpty = true) := by
      simp only [List.isEmpty_iff]
      exact hne
    have hcode : (mainRun network clock base_url builds platforms out retries fs0).2 = 2
        ∧ (mainRun network clock base_url builds platforms out retries fs0).1.errors
          = (runJobs network retries (pyRstripSlash base_url) out clock
              (jobList builds platforms) fs0).errors
        ∧ (mainRun network clock base_url builds platforms out retries fs0).1.fs
          = fsWrite (runJobs network retries (pyRstripSlash base_url) out clock
                (jobList builds platforms) fs0).fs
              (out ++ ["fetch_errors.json"])
              (.errs (runJobs network retries (pyRstripSlash base_url) out clock
                (jobList builds platforms) fs0).errors) := by
      simp only [mainRun]
      rw [if_neg hfalse]
      exact ⟨rfl, rfl, rfl⟩
    refine ⟨hcode.1, ?_, ?_⟩
    · rw [hcode.2.1]
      exact hne
    · rw [hcode.2.2, hcode.2.1]
      exact fsRead_write_self _ _ _

/-- Concrete instance of `C4_exit_codes`: one job over one build and one
platform; a fetcher that always answers 200 gives code 0, an always-raising
fetcher gives code 2 with the errors file written. -/
theorem C4_exit_codes_witness :
    (mainRun (fun _ _ => NetOutcome.resp 200 "abc" [])
        (fun _ => PyDateTime.mk 2026 1 1 0 0 0 0) "http://h" ["3025"] ["windows"]
        ["data", "builds"] 3 []).2 = 0
    ∧ fsRead (mainRun (fun _ _ => NetOutcome.resp 200 "abc" [])
        (fun _ => PyDateTime.mk 2026 1 1 0 0 0 0) "http://h" ["3025"] ["windows"]
        ["data", "builds"] 3 []).1.fs (["data", "builds"] ++ ["fetch_errors.json"])
      = fsRead [] (["data", "builds"] ++ ["fetch_errors.json"])
    ∧ (mainRun (fun _ _ => NetOutcome.exc)
        (fun _ => PyDateTime.mk 2026 1 1 0 0 0 0) "http://h" ["3025"] ["windows"]
        ["data", "builds"] 3 []).2 = 2
    ∧ (mainRun (fun _ _ => NetOutcome.exc)
        (fun _ => PyDateTime.mk 2026 1 1 0 0 0 0) "http://h" ["3025"] ["windows"]
        ["data", "builds"] 3 []).1.errors ≠ []
    ∧ fsRead (mainRun (fun _ _ => NetOutcome.exc)
        (fun _ => PyDateTime.mk 2026 1 1 0 0 0 0) "http://h" ["3025"] ["windows"]
        ["data", "builds"] 3 []).1.fs (["data", "builds"] ++ ["fetch_errors.json"])
      = some (.errs (mainRun (fun _ _ => NetOutcome.exc)
          (fun _ => PyDateTime.mk 2026 1 1 0 0 0 0) "http://h" ["3025"] ["windows"]
          ["data", "builds"] 3 []).1.errors) := by
  have hA := (C4_exit_codes (fun _ _ => NetOutcome.resp 200 "abc" [])
    (fun _ => PyDateTime.mk 2026 1 1 0 0 0 0) "http://h" ["3025"] ["windows"]
    ["data", "builds"] 3 []).1 (by decide)
  have hB := (C4_exit_codes (fun _ _ => NetOutcome.exc)
    (fun _ => PyDateTime.mk 2026 1 1 0 0 0 0) "http://h" ["3025"] ["windows"]
    ["data", "builds"] 3 []).2 ⟨("3025", "windows"), by decide, by decide⟩
  exact ⟨hA.1, hA.2, hB.1, hB.2.1, hB.2.2⟩

/-- The metadata path and the body path of one job differ. -/
lemma meta_path_ne_body_path (out : FsPath) (b p : String) :
    out ++ [b, p, "meta.json"] ≠ out ++ [b, p, "latest_commits.txt"] := by
  intro h
  have := List.append_cancel_left h
  simp at this

/-- **C6.** A successful job writes the fetched body verbatim to
`{out}/{build}/{platform}/latest_commits.txt` (the write is total: parent
directories are created first), so reading that path back yields exactly the
body, with the MetaRecord in the sibling `meta.json`; re-running the same
job after a second successful fetch overwrites both files, so the reads
yield the new body and the metadata carries the new (next-tick) timestamp —
no stale content remains visible. -/
theorem C6_persistence_roundtrip (n1 n2 : String × String → Nat → NetOutcome)
    (retries : Int) (base : String) (out : FsPath) (clock : Nat → PyDateTime)
    (st : DriverState) (b p c1 c2 : String)
    (h1 : (fetch_url (n1 (b, p)) retries).1.1 = some c1)
    (h2 : (fetch_url (n2 (b, p)) retries).1.1 = some c2) :
    fsRead (processJob n1 retries base out clock st (b, p)).fs
        (out ++ [b, p, "latest_commits.txt"]) = some (.text c1)
    ∧ fsRead (processJob n1 retries base out clock st (b, p)).fs
        (out ++ [b, p, "meta.json"])
      = some (.jsonObj (metaKvs b p (clock st.time) (build_target_url base b p)))
    ∧ fsRead (processJob n2 retries base out clock
          (processJob n1 retries base out clock st (b, p)) (b, p)).fs
        (out ++ [b, p, "latest_commits.txt"]) = some (.text c2)
    ∧ fsRead (processJob n2 retries base out clock
          (processJob n1 retries base out clock st (b, p)) (b, p)).fs
        (out ++ [b, p, "meta.json"])
      = some (.jsonObj (metaKvs b p (clock (st.time + 1)) (build_target_url base b p))) := by
  rw [processJob_success n1 retries base out clock st (b, p) c1 h1,
    processJob_success n2 retries base out clock _ (b, p) c2 h2]
  refine ⟨?_, ?_, ?_, ?_⟩
  · rw [fsRead_write_ne _ _ _ _ (meta_path_ne_body_path out b p), fsRead_write_self]
  · exact fsRead_write_self _ _ _
  · rw [fsRead_write_ne _ _ _ _ (meta_path_ne_body_path out b p), fsRead_write_self]
  · exact fsRead_write_self _ _ _

/-- Concrete instance of `C6_persistence_roundtrip`: content `"abc123\n"` for
build `"3025"`, platform `"windows"`, then a re-run fetching `"xyz\n"`. -/
theorem C6_persistence_roundtrip_witness :
    fsRead (processJob (fun _ _ => NetOutcome.resp 200 "abc123\n" []) 3 "http://h"
        ["data", "builds"] (fun t => PyDateTime.mk 2026 1 1 0 0 t 0)
        ⟨[], [], 0, 0⟩ ("3025", "windows")).fs
        (["data", "builds"] ++ ["3025", "windows", "latest_commits.txt"])
      = some (.text "abc123\n")
    ∧ fsRead (processJob (fun _ _ => NetOutcome.resp 200 "abc123\n" []) 3 "http://h"
        ["data", "builds"] (fun t => PyDateTime.mk 2026 1 1 0 0 t 0)
        ⟨[], [], 0, 0⟩ ("3025", "windows")).fs
        (["data", "builds"] ++ ["3025", "windows", "meta.json"])
      = some (.jsonObj (metaKvs "3025" "windows" (PyDateTime.mk 2026 1 1 0 0 0 0)
          (build_target_url "http://h" "3025" "windows")))
    ∧ fsRead (processJob (fun _ _ => NetOutcome.resp 200 "xyz\n" []) 3 "http://h"
        ["data", "builds"] (fun t => PyDateTime.mk 2026 1 1 0 0 t 0)
        (processJob (fun _ _ => NetOutcome.resp 200 "abc123\n" []) 3 "http://h"
          ["data", "builds"] (fun t => PyDateTime.mk 2026 1 1 0 0 t 0)
          ⟨[], [], 0, 0⟩ ("3025", "windows")) ("3025", "windows")).fs
        (["data", "builds"] ++ ["3025", "windows", "latest_commits.txt"])
      = some (.text "xyz\n")
    ∧ fsRead (processJob (fun _ _ => NetOutcome.resp 200 "xyz\n" []) 3 "http://h"
        ["data", "builds"] (fun t => PyDateTime.mk 2026 1 1 0 0 t 0)
        (processJob (fun _ _ => NetOutcome.resp 200 "abc123\n" []) 3 "http://h"
          ["data", "builds"] (fun t => PyDateTime.mk 2026 1 1 0 0 t 0)
          ⟨[], [], 0, 0⟩ ("3025", "windows")) ("3025", "windows")).fs
        (["data", "builds"] ++ ["3025", "windows", "meta.json"])
      = some (.jsonObj (metaKvs "3025" "windows" (PyDateTime.mk 2026 1 1 0 0 1 0)
          (build_target_url "http://h" "3025" "windows"))) :=
  C6_persistence_roundtrip (fun _ _ => NetOutcome.resp 200 "abc123\n" [])
    (fun _ _ => NetOutcome.resp 200 "xyz\n" []) 3 "http://h" ["data", "builds"]
    (fun t => PyDateTime.mk 2026 1 1 0 0 t 0) ⟨[], [], 0, 0⟩ "3025" "windows"
    "abc123\n" "xyz\n" rfl rfl

/-- **C8.** The `meta.json` of every successful job holds exactly the four
keys `build`, `platform`, `fetched_at` and `source_url`, in that order,
whose values are the job's build id, its platform id, the ISO-8601 rendering
of the sampled time — which always carries the fixed `+05:30` offset — and
the URL the content was fetched from. -/
theorem C8_meta_schema (network : String × String → Nat → NetOutcome)
    (retries : Int) (base : String) (out : FsPath) (clock : Nat → PyDateTime)
    (st : DriverState) (b p c : String)
    (h : (fetch_url (network (b, p)) retries).1.1 = some c) :
    fsRead (processJob network retries base out clock st (b, p)).fs
        (out ++ [b, p, "meta.json"])
      = some (.jsonObj (metaKvs b p (clock st.time) (build_target_url base b p)))
    ∧ (metaKvs b p (clock st.time) (build_target_url base b p)).map Prod.fst
        = ["build", "platform", "fetched_at", "source_url"]
    ∧ metaKvs b p (clock st.time) (build_target_url base b p)
        = [("build", b), ("platform", p),
           ("fetched_at", isoformat (clock st.time)),
           ("source_url", build_target_url base b p)]
    ∧ ∃ t : String, isoformat (clock st.time) = t ++ "+05:30" := by
  refine ⟨?_, rfl, rfl, ⟨_, rfl⟩⟩
  rw [processJob_success network retries base out clock st (b, p) c h]
  exact fsRead_write_self _ _ _

/-- Concrete instance of `C8_meta_schema`: a successful fetch for build
`"3025"`, platform `"windows"`. -/
theorem C8_meta_schema_witness :
    fsRead (processJob (fun _ _ => NetOutcome.resp 200 "abc" []) 3 "http://h"
        ["data", "builds"] (fun _ => PyDateTime.mk 2026 1 1 12 30 5 0)
        ⟨[], [], 0, 0⟩ ("3025", "windows")).fs
        (["data", "builds"] ++ ["3025", "windows", "meta.json"])
      = some (.jsonObj (metaKvs "3025" "windows" (PyDateTime.mk 2026 1 1 12 30 5 0)
          (build_target_url "http://h" "3025" "windows")))
    ∧ (metaKvs "3025" "windows" (PyDateTime.mk 2026 1 1 12 30 5 0)
        (build_target_url "http://h" "3025" "windows")).map Prod.fst
        = ["build", "platform", "fetched_at", "source_url"]
    ∧ metaKvs "3025" "windows" (PyDateTime.mk 2026 1 1 12 30 5 0)
        (build_target_url "http://h" "3025" "windows")
        = [("build", "3025"), ("platform", "windows"),
           ("fetched_at", isoformat (PyDateTime.mk 2026 1 1 12 30 5 0)),
           ("source_url", build_target_url "http://h" "3025" "windows")]
    ∧ ∃ t : String, isoformat (PyDateTime.mk 2026 1 1 12 30 5 0) = t ++ "+05:30" :=
  C8_meta_schema (fun _ _ => NetOutcome.resp 200 "abc" []) 3 "http://h"
    ["data", "builds"] (fun _ => PyDateTime.mk 2026 1 1 12 30 5 0)
    ⟨[], [], 0, 0⟩ "3025" "windows" "abc" rfl

/-- **C9.** Every HTTP 200 response — an empty body included — makes
`fetch_url` return success immediately with the body as-is (no content
validation), and the driver then treats the job as successful: it persists
the body, leaves the error list untouched and increments the success
count. -/
theorem C9_http200_accepted (oracle : Nat → NetOutcome) (r : Int) (body : String)
    (headers : Headers) (h1 : 1 ≤ r) (h0 : oracle 0 = .resp 200 body headers) :
    fetch_url oracle r
        = ((some body, some 200, some headers), [.call (.resp 200 body headers)])
    ∧ ∀ (network : String × String → Nat → NetOutcome) (base : String) (out : FsPath)
        (clock : Nat → PyDateTime) (st : DriverState) (b p : String),
        network (b, p) = oracle →
        (processJob network r base out clock st (b, p)).success_count
            = st.success_count + 1
        ∧ (processJob network r base out clock st (b, p)).errors = st.errors
        ∧ fsRead (processJob network r base out clock st (b, p)).fs
            (out ++ [b, p, "latest_commits.txt"]) = some (.text body) := by
  obtain ⟨f, hf⟩ : ∃ f, r.toNat = f + 1 := ⟨r.toNat - 1, by omega⟩
  have hmain : fetch_url oracle r
      = ((some body, some 200, some headers), [.call (.resp 200 body headers)]) := by
    rw [fetch_url, hf]
    simp [fetchLoop, h0]
  refine ⟨hmain, ?_⟩
  intro network base out clock st b p hnet
  have hcontent : (fetch_url (network (b, p)) r).1.1 = some body := by
    rw [hnet, hmain]
  rw [processJob_success network r base out clock st (b, p) body hcontent]
  refine ⟨rfl, rfl, ?_⟩
  rw [fsRead_write_ne _ _ _ _ (meta_path_ne_body_path out b p), fsRead_write_self]

/-- Concrete instance of `C9_http200_accepted`: a 200 response with an
*empty* body is accepted and persisted as an empty file. -/
theorem C9_http200_accepted_witness :
    fetch_url (fun _ => NetOutcome.resp 200 "" []) 3
        = ((some "", some 200, some []), [.call (.resp 200 "" [])])
    ∧ (processJob (fun _ _ => NetOutcome.resp 200 "" []) 3 "http://h" ["o"]
        (fun _ => PyDateTime.mk 2026 1 1 0 0 0 0) ⟨[], [], 0, 0⟩
        ("3025", "windows")).success_count = 1
    ∧ (processJob (fun _ _ => NetOutcome.resp 200 "" []) 3 "http://h" ["o"]
        (fun _ => PyDateTime.mk 2026 1 1 0 0 0 0) ⟨[], [], 0, 0⟩
        ("3025", "windows")).errors = []
    ∧ fsRead (processJob (fun _ _ => NetOutcome.resp 200 "" []) 3 "http://h" ["o"]
        (fun _ => PyDateTime.mk 2026 1 1 0 0 0 0) ⟨[], [], 0, 0⟩
        ("3025", "windows")).fs (["o"] ++ ["3025", "windows", "latest_commits.txt"])
      = some (.text "") := by
  have h := C9_http200_accepted (fun _ => NetOutcome.resp 200 "" []) 3 "" []
    (by norm_num) rfl
  have h2 := h.2 (fun _ _ => NetOutcome.resp 200 "" []) "http://h" ["o"]
    (fun _ => PyDateTime.mk 2026 1 1 0 0 0 0) ⟨[], [], 0, 0⟩ "3025" "windows" rfl
  exact ⟨h.1, h2.1, h2.2.1, h2.2.2⟩

/-- The cross product has `|builds| * |platforms|` jobs. -/
lemma jobList_length (builds platforms : List String) :
    (jobList builds platforms).length = builds.length * platforms.length := by
  induction builds with
  | nil => simp [jobList]
  | cons b bs ih =>
    have hcons : jobList (b :: bs) platforms
        = platforms.map (fun p => (b, p)) ++ jobList bs platforms := rfl
    rw [hcons, List.length_append, List.length_map, ih, List.length_cons]
    ring

/-- **C10.** For every `retries ≤ 0` the loop guard fails at once:
`fetch_url` makes zero network attempts and returns the exhaustion failure
(no content, no status, no headers).  Consequently every job of any run is
recorded as failed — zero successes, one error per job — and when the job
set is non-empty the process exits with code 2, without any network I/O. -/
theorem C10_zero_attempts (oracle : Nat → NetOutcome) (r : Int) (hr : r ≤ 0) :
    fetch_url oracle r = ((none, none, none), [])
    ∧ ∀ (network : String × String → Nat → NetOutcome) (clock : Nat → PyDateTime)
        (base_url : String) (builds platforms : List String) (out : FsPath) (fs0 : FS),
        (∀ j, callsOf (fetch_url (network j) r).2 = 0)
        ∧ (mainRun network clock base_url builds platforms out r fs0).1.success_count = 0
        ∧ (mainRun network clock base_url builds platforms out r fs0).1.errors.length
          = builds.length * platforms.length
        ∧ (builds ≠ [] → platforms ≠ [] →
            (mainRun network clock base_url builds platforms out r fs0).2 = 2) := by
  have hn : r.toNat = 0 := by omega
  have hall : ∀ o : Nat → NetOutcome, fetch_url o r = ((none, none, none), []) := by
    intro o
    rw [fetch_url, hn]
    rfl
  refine ⟨hall oracle, ?_⟩
  intro network clock base_url builds platforms out fs0
  have hok : ∀ j, jobOk network r j = false := by
    intro j
    simp [jobOk, hall]
  obtain ⟨hfe, hfs⟩ := mainRun_fields network clock base_url builds platforms out r fs0
  obtain ⟨he, hs, -⟩ := runJobs_characterization network r (pyRstripSlash base_url)
    out clock (jobList builds platforms) ⟨fs0, [], 0, 0⟩
  have hfilterNone : (jobList builds platforms).filter (jobOk network r) = [] :=
    List.filter_eq_nil_iff.mpr fun a _ => by simp [hok a]
  have hfilterAll : ((jobList builds platforms).filter fun j => ! jobOk network r j)
      = jobList builds platforms :=
    List.filter_eq_self.mpr fun a _ => by simp [hok a]
  have herr : (runJobs network r (pyRstripSlash base_url) out clock
      (jobList builds platforms) fs0).errors
      = (jobList builds platforms).map
          (fun j => errorRecordOf (pyRstripSlash base_url) r
            (fetch_url (network j) r).1.2.1 j) := by
    rw [runJobs, he, hfilterAll]
    simp
  have hsucc : (runJobs network r (pyRstripSlash base_url) out clock
      (jobList builds platforms) fs0).success_count = 0 := by
    rw [runJobs, hs, hfilterNone]
    rfl
  refine ⟨fun j => by rw [hall (network j)]; rfl, ?_, ?_, ?_⟩
  · rw [hfs, hsucc]
  · rw [hfe, herr, List.length_map, jobList_length]
  · intro hb hp
    have hlen : 0 < (runJobs network r (pyRstripSlash base_url) out clock
        (jobList builds platforms) fs0).errors.length := by
      rw [herr, List.length_map, jobList_length]
      exact Nat.mul_pos (List.length_pos.mpr hb) (List.length_pos.mpr hp)
    have hne : (runJobs network r (pyRstripSlash base_url) out clock
        (jobList builds platforms) fs0).errors ≠ [] := List.length_pos.mp hlen
    have hfalse : ¬ ((runJobs network r (pyRstripSlash base_url) out clock
        (jobList builds platforms) fs0).errors.isEmpty = true) := by
      simp only [List.isEmpty_iff]
      exact hne
    simp only [mainRun]
    rw [if_neg hfalse]

/-- Concrete instance of `C10_zero_attempts`: `--retries 0` over two builds
and one platform. -/
theorem C10_zero_attempts_witness :
    fetch_url (fun _ => NetOutcome.exc) 0 = ((none, none, none), [])
    ∧ callsOf (fetch_url (fun _ => NetOutcome.exc) 0).2 = 0
    ∧ (mainRun (fun _ _ => NetOutcome.exc) (fun _ => PyDateTime.mk 2026 1 1 0 0 0 0)
        "http://h" ["3025", "3026"] ["windows"] ["o"] 0 []).1.success_count = 0
    ∧ (mainRun (fun _ _ => NetOutcome.exc) (fun _ => PyDateTime.mk 2026 1 1 0 0 0 0)
        "http://h" ["3025", "3026"] ["windows"] ["o"] 0 []).1.errors.length = 2 * 1
    ∧ (mainRun (fun _ _ => NetOutcome.exc) (fun _ => PyDateTime.mk 2026 1 1 0 0 0 0)
        "http://h" ["3025", "3026"] ["windows"] ["o"] 0 []).2 = 2 := by
  have h := C10_zero_attempts (fun _ => NetOutcome.exc) 0 (by norm_num)
  have h2 := h.2 (fun _ _ => NetOutcome.exc) (fun _ => PyDateTime.mk 2026 1 1 0 0 0 0)
    "http://h" ["3025", "3026"] ["windows"] ["o"] []
  exact ⟨h.1, h2.1 ("3025", "windows"), h2.2.1, h2.2.2.1,
    h2.2.2.2 (by simp) (by simp)⟩
